import Mathlib

/-!
Shallow embedding of the BME280 resilient register-access driver
(src/src/BME280.cpp, src/include/BME280/BME280.h) and proofs of the
specification claims about its tracked-transport health state machine.

Modelling conventions:
* C++ machine integers become `Nat`; the explicit saturation bounds
  `maxU32 = 2^32 - 1` and `maxU8 = 2^8 - 1` from `_updateHealth` are kept
  literally, so no wrap-around modelling is needed elsewhere.
* Buffers passed by pointer become `Option (List Nat)` (`none` models a
  null pointer); lengths stay separate arguments, as in the C signatures.
  An out-buffer (`rxBuf`) is modelled by a `Bool` non-null flag plus the
  byte list returned by the transport capability.
* The injected transport capabilities are functions; because the physical
  bus the C++ callback talks to changes between invocations, each
  capability receives an explicit `world : Nat` argument describing the
  external bus condition at that call, supplied per call by the driver's
  caller. `millis()` is likewise made explicit as a `now : Nat` argument
  to the operations that reach `_updateHealth`.
-/

namespace BME280

/-- Error classification of the `Status` result type. The enumerators are
taken from the `errToStr` table in the example front end
(src/examples/01_basic_bringup_cli/main.cpp), which lists the full closed
set declared in Status.h. -/
inductive Err where
  | OK
  | NOT_INITIALIZED
  | INVALID_CONFIG
  | I2C_ERROR
  | TIMEOUT
  | INVALID_PARAM
  | DEVICE_NOT_FOUND
  | CHIP_ID_MISMATCH
  | CALIBRATION_INVALID
  | MEASUREMENT_NOT_READY
  | COMPENSATION_ERROR
  | BUSY
  | IN_PROGRESS
deriving DecidableEq, Repr

/-- Modelled from the spec: Status.h is not under src/. The Result type
"carries outcome of every operation (success / error-kind / optional
detail / optional message)"; its fields `code`, `msg`, `detail` are the
ones used by BME280.cpp and printed by the example front end. -/
structure Status where
  code : Err
  msg : String
  detail : Int
deriving DecidableEq, Repr

/-- Modelled from the spec: the "ok" singleton sentinel constructor of
Status.h ("constructible as the ok sentinel"). -/
def Status.Ok : Status := { code := Err.OK, msg := "", detail := 0 }

/-- Modelled from the spec: the two-argument error constructor of
Status.h ("or as an error with a classification, optional message,
optional numeric detail"); detail defaults to 0. -/
def Status.Error (c : Err) (m : String) : Status :=
  { code := c, msg := m, detail := 0 }

/-- Modelled from the spec: the three-argument error constructor of
Status.h, carrying a numeric detail (used by probe/recover to report the
unexpected identity byte). -/
def Status.ErrorD (c : Err) (m : String) (dtl : Int) : Status :=
  { code := c, msg := m, detail := dtl }

/-- Modelled from the spec: the `ok()` predicate of Status.h "returns
true iff classification is the sentinel". -/
def Status.ok (s : Status) : Bool := s.code = Err.OK

/-- Type of the injected write capability
`(address, buffer, length, timeoutMs, user) -> Status`, with the explicit
leading `world` argument described in the module docstring. -/
def I2cWriteFn : Type := Nat → Nat → List Nat → Nat → Nat → Unit → Status

/-- Type of the injected write-then-read capability
`(address, txBuf, txLen, rxBuf, rxLen, timeoutMs, user) -> Status`; the
bytes the capability deposits in `rxBuf` are returned as a list, and the
leading `world` argument is as in the module docstring. -/
def I2cWriteReadFn : Type :=
  Nat → Nat → List Nat → Nat → Nat → Nat → Unit → Status × List Nat

/-- Modelled from the spec: Config.h is not under src/. The configuration
bundle holds the two transport capabilities (nullable), the bus address,
the timeout bound, the opaque user context, and the offline threshold —
exactly the fields BME280.cpp reads. -/
structure Config where
  i2cWrite : Option I2cWriteFn
  i2cWriteRead : Option I2cWriteReadFn
  i2cAddress : Nat
  i2cTimeoutMs : Nat
  i2cUser : Unit
  offlineThreshold : Nat

/-- Modelled from the spec: a default-constructed Config (no capabilities
set, numeric fields zero), as the driver's `_config` member before
`begin` commits a validated configuration. -/
def defaultConfig : Config :=
  { i2cWrite := none, i2cWriteRead := none, i2cAddress := 0,
    i2cTimeoutMs := 0, i2cUser := (), offlineThreshold := 0 }

/-- Embeds `DriverState` from BME280.h: supervisory classification of the driver. -/
inductive DriverState where
  | UNINIT
  | READY
  | DEGRADED
  | OFFLINE
deriving DecidableEq, Repr

/-- The driver's member state, from the private section of BME280.h. -/
structure Driver where
  config : Config
  initialized : Bool
  driverState : DriverState
  lastOkMs : Nat
  lastErrorMs : Nat
  lastError : Status
  consecutiveFailures : Nat
  totalFailures : Nat
  totalSuccess : Nat

/-- A driver as default-constructed by the member initializers in
BME280.h: not initialized, `UNINIT`, all counters zero, last error `Ok`. -/
def freshDriver : Driver :=
  { config := defaultConfig, initialized := false,
    driverState := DriverState.UNINIT, lastOkMs := 0, lastErrorMs := 0,
    lastError := Status.Ok, consecutiveFailures := 0, totalFailures := 0,
    totalSuccess := 0 }

/-- Embeds `MAX_WRITE_LEN` from BME280.cpp. -/
def MAX_WRITE_LEN : Nat := 16

/-- Modelled from the spec: CommandTable.h is not under src/; the spec
only requires a fixed device-identity register address. The value is the
conventional BME280 one. -/
def REG_CHIP_ID : Nat := 0xD0

/-- Modelled from the spec: CommandTable.h is not under src/; the spec
only requires a fixed expected chip-identity constant. The value is the
conventional BME280 one. -/
def CHIP_ID_BME280 : Nat := 0x60

/-- Embeds the uint32_t maximum from std numeric limits, as used in `_updateHealth`. -/
def maxU32 : Nat := 4294967295

/-- Embeds the uint8_t maximum from std numeric limits, as used in `_updateHealth`. -/
def maxU8 : Nat := 255

/-- Embeds `BME280::begin` (BME280.cpp lines 17-43): reset all health state,
validate the configuration, coerce a zero offline threshold to 1, commit
the configuration and enter `READY`. -/
def Driver.begin (d : Driver) (config : Config) : Status × Driver :=
  let d0 : Driver :=
    { d with initialized := false, driverState := DriverState.UNINIT,
             lastOkMs := 0, lastErrorMs := 0, lastError := Status.Ok,
             consecutiveFailures := 0, totalFailures := 0,
             totalSuccess := 0 }
  if config.i2cWrite.isNone || config.i2cWriteRead.isNone then
    (Status.Error Err.INVALID_CONFIG "I2C callbacks not set", d0)
  else if config.i2cTimeoutMs = 0 then
    (Status.Error Err.INVALID_CONFIG "I2C timeout must be > 0", d0)
  else
    let cfg :=
      if config.offlineThreshold = 0 then
        { config with offlineThreshold := 1 }
      else config
    (Status.Ok,
     { d0 with config := cfg, initialized := true,
               driverState := DriverState.READY })

/-- Embeds `BME280::tick` (BME280.cpp): reserved hook, performs no action. -/
def Driver.tick (d : Driver) (nowMs : Nat) : Driver :=
  let _ := nowMs
  d

/-- Embeds `BME280::end` (BME280.cpp lines 49-52): unconditionally mark the
driver not-initialized and `UNINIT`. (`end` is a reserved word in Lean,
hence the trailing underscore.) -/
def Driver.end_ (d : Driver) : Driver :=
  { d with initialized := false, driverState := DriverState.UNINIT }

/-- Embeds `BME280::_i2cWriteReadRaw` (BME280.cpp lines 90-97): invoke the
write-then-read capability directly; fail with `INVALID_CONFIG` if it is
unset. Touches no member state, so it returns only the status and the
bytes the capability deposited in the receive buffer. -/
def Driver.i2cWriteReadRaw (d : Driver) (world : Nat)
    (txBuf : Option (List Nat)) (txLen : Nat) (rxLen : Nat) :
    Status × List Nat :=
  match d.config.i2cWriteRead with
  | none => (Status.Error Err.INVALID_CONFIG "I2C write-read not set", [])
  | some f =>
      f world d.config.i2cAddress (txBuf.getD []) txLen rxLen
        d.config.i2cTimeoutMs d.config.i2cUser

/-- Embeds `BME280::_i2cWriteRaw` (BME280.cpp lines 99-105): invoke the write
capability directly; fail with `INVALID_CONFIG` if it is unset. -/
def Driver.i2cWriteRaw (d : Driver) (world : Nat)
    (buf : Option (List Nat)) (len : Nat) : Status :=
  match d.config.i2cWrite with
  | none => Status.Error Err.INVALID_CONFIG "I2C write not set"
  | some f =>
      f world d.config.i2cAddress (buf.getD []) len d.config.i2cTimeoutMs
        d.config.i2cUser

/-- Embeds `BME280::_updateHealth` (BME280.cpp lines 170-205): the health state
machine. `now` is the value `millis()` returns at the call. -/
def Driver.updateHealth (d : Driver) (now : Nat) (st : Status) :
    Status × Driver :=
  if !d.initialized then
    (st, d)
  else if st.ok then
    (st,
     { d with lastOkMs := now,
              totalSuccess :=
                if d.totalSuccess < maxU32 then d.totalSuccess + 1
                else d.totalSuccess,
              consecutiveFailures := 0,
              driverState := DriverState.READY })
  else
    let cf :=
      if d.consecutiveFailures < maxU8 then d.consecutiveFailures + 1
      else d.consecutiveFailures
    let tf :=
      if d.totalFailures < maxU32 then d.totalFailures + 1
      else d.totalFailures
    (st,
     { d with lastError := st, lastErrorMs := now, totalFailures := tf,
              consecutiveFailures := cf,
              driverState :=
                if cf ≥ d.config.offlineThreshold then DriverState.OFFLINE
                else DriverState.DEGRADED })

/-- Embeds `BME280::_i2cWriteReadTracked` (BME280.cpp lines 107-122): check
initialization and buffer well-formedness, invoke the raw path, and
forward every non-excluded outcome through `_updateHealth`. `rxNonNull`
models whether the caller's receive pointer is non-null. -/
def Driver.i2cWriteReadTracked (d : Driver) (world now : Nat)
    (txBuf : Option (List Nat)) (txLen : Nat) (rxNonNull : Bool)
    (rxLen : Nat) : Status × List Nat × Driver :=
  if !d.initialized then
    (Status.Error Err.NOT_INITIALIZED "begin() not called", [], d)
  else if txBuf.isNone || txLen = 0 || (rxLen > 0 && !rxNonNull) then
    (Status.Error Err.INVALID_PARAM "Invalid I2C buffer", [], d)
  else
    let r := d.i2cWriteReadRaw world txBuf txLen rxLen
    if r.1.code = Err.INVALID_CONFIG || r.1.code = Err.INVALID_PARAM ||
        r.1.code = Err.NOT_INITIALIZED then
      (r.1, r.2, d)
    else
      let u := d.updateHealth now r.1
      (u.1, r.2, u.2)

/-- Embeds `BME280::_i2cWriteTracked` (BME280.cpp lines 124-138). -/
def Driver.i2cWriteTracked (d : Driver) (world now : Nat)
    (buf : Option (List Nat)) (len : Nat) : Status × Driver :=
  if !d.initialized then
    (Status.Error Err.NOT_INITIALIZED "begin() not called", d)
  else if buf.isNone || len = 0 then
    (Status.Error Err.INVALID_PARAM "Invalid I2C buffer", d)
  else
    let st := d.i2cWriteRaw world buf len
    if st.code = Err.INVALID_CONFIG || st.code = Err.INVALID_PARAM ||
        st.code = Err.NOT_INITIALIZED then
      (st, d)
    else
      d.updateHealth now st

/-- Embeds `BME280::readRegs` (BME280.cpp lines 140-150): frame a one-byte
register-address write followed by a `len`-byte read on the tracked path.
`bufNonNull` models whether the caller's destination pointer is non-null;
the bytes read come back as the middle component. -/
def Driver.readRegs (d : Driver) (world now : Nat) (startReg : Nat)
    (bufNonNull : Bool) (len : Nat) : Status × List Nat × Driver :=
  if !d.initialized then
    (Status.Error Err.NOT_INITIALIZED "begin() not called", [], d)
  else if !bufNonNull || len = 0 then
    (Status.Error Err.INVALID_PARAM "Invalid read buffer", [], d)
  else
    d.i2cWriteReadTracked world now (some [startReg]) 1 bufNonNull len

/-- Embeds `BME280::writeRegs` (BME280.cpp lines 152-168): bound the payload by
`MAX_WRITE_LEN`, frame `[startReg] ++ payload` into one transaction and
send it on the tracked path. The `memcpy` of `len` bytes from `buf` is
`List.take len`. -/
def Driver.writeRegs (d : Driver) (world now : Nat) (startReg : Nat)
    (buf : Option (List Nat)) (len : Nat) : Status × Driver :=
  if !d.initialized then
    (Status.Error Err.NOT_INITIALIZED "begin() not called", d)
  else if buf.isNone || len = 0 then
    (Status.Error Err.INVALID_PARAM "Invalid write buffer", d)
  else if len > MAX_WRITE_LEN then
    (Status.Error Err.INVALID_PARAM "Write length too large", d)
  else
    let payload := startReg :: (buf.getD []).take len
    d.i2cWriteTracked world now (some payload) (len + 1)

/-- Embeds `BME280::probe` (BME280.cpp lines 54-70): identity check via the raw
(untracked) path; `uint8_t id = 0` before the call is the `headD 0`. -/
def Driver.probe (d : Driver) (world : Nat) : Status × Driver :=
  if !d.initialized then
    (Status.Error Err.NOT_INITIALIZED "begin() not called", d)
  else
    let r := d.i2cWriteReadRaw world (some [REG_CHIP_ID]) 1 1
    if !r.1.ok then
      (r.1, d)
    else
      let id := r.2.headD 0
      if id ≠ CHIP_ID_BME280 then
        (Status.ErrorD Err.CHIP_ID_MISMATCH "Chip ID mismatch"
          (Int.ofNat id), d)
      else
        (Status.Ok, d)

/-- Embeds `BME280::recover` (BME280.cpp lines 72-88): the identical identity
check but via the tracked path. -/
def Driver.recover (d : Driver) (world now : Nat) : Status × Driver :=
  if !d.initialized then
    (Status.Error Err.NOT_INITIALIZED "begin() not called", d)
  else
    let r := d.i2cWriteReadTracked world now (some [REG_CHIP_ID]) 1 true 1
    if !r.1.ok then
      (r.1, r.2.2)
    else
      let id := r.2.1.headD 0
      if id ≠ CHIP_ID_BME280 then
        (Status.ErrorD Err.CHIP_ID_MISMATCH "Chip ID mismatch"
          (Int.ofNat id), r.2.2)
      else
        (Status.Ok, r.2.2)

/-- Embeds the `BME280::state` accessor (BME280.h). -/
def Driver.state (d : Driver) : DriverState := d.driverState

/-! ### Test fixtures: concrete capabilities and configurations used by
the closed witness theorems. -/

/-- A write capability that always succeeds. -/
def okWriteCap : I2cWriteFn := fun _ _ _ _ _ _ => Status.Ok

/-- A write-then-read capability that always succeeds and returns the
expected chip identity byte. -/
def okWriteReadCap : I2cWriteReadFn :=
  fun _ _ _ _ _ _ _ => (Status.Ok, [CHIP_ID_BME280])

/-- A write-then-read capability that always reports a bus fault. -/
def failWriteReadCap : I2cWriteReadFn :=
  fun _ _ _ _ _ _ _ => (Status.Error Err.I2C_ERROR "bus fault", [])

/-- A write-then-read capability whose transaction succeeds but returns
the wrong identity byte `0x61`. -/
def wrongIdWriteReadCap : I2cWriteReadFn :=
  fun _ _ _ _ _ _ _ => (Status.Ok, [0x61])

/-- A write-then-read capability reporting the excluded classification
`INVALID_PARAM` from the transport itself. -/
def paramErrWriteReadCap : I2cWriteReadFn :=
  fun _ _ _ _ _ _ _ => (Status.Error Err.INVALID_PARAM "injected", [9])

/-- A write capability reporting the excluded classification
`NOT_INITIALIZED` from the transport itself. -/
def notInitWriteCap : I2cWriteFn :=
  fun _ _ _ _ _ _ => Status.Error Err.NOT_INITIALIZED "injected"

/-- A write-then-read capability that fails with a bus fault while the
external bus condition `world` is below 2 and afterwards succeeds with
the wrong identity byte `0x61`. -/
def mixedWriteReadCap : I2cWriteReadFn :=
  fun w _ _ _ _ _ _ =>
    if w < 2 then (Status.Error Err.I2C_ERROR "bus fault", [])
    else (Status.Ok, [0x61])

/-- A write-then-read capability that fails with a bus fault while the
external bus condition `world` is below 5 and afterwards succeeds. -/
def seqWriteReadCap : I2cWriteReadFn :=
  fun w _ _ _ _ _ _ =>
    if w < 5 then (Status.Error Err.I2C_ERROR "bus fault", [])
    else (Status.Ok, [7])

/-- A valid configuration with an always-succeeding transport and offline
threshold 5. -/
def testConfig : Config :=
  { i2cWrite := some okWriteCap, i2cWriteRead := some okWriteReadCap,
    i2cAddress := 0x76, i2cTimeoutMs := 100, i2cUser := (),
    offlineThreshold := 5 }

/-- Variant of `testConfig` with the wrong-identity transport. -/
def badIdConfig : Config :=
  { testConfig with i2cWriteRead := some wrongIdWriteReadCap }

/-- Variant of `testConfig` with the two-failures-then-wrong-identity transport. -/
def mixedConfig : Config :=
  { testConfig with i2cWriteRead := some mixedWriteReadCap }

/-- Variant of `testConfig` with the five-failures-then-success transport. -/
def seqConfig : Config :=
  { testConfig with i2cWriteRead := some seqWriteReadCap }

/-- Variant of `testConfig` with transports that report excluded classifications. -/
def excludedConfig : Config :=
  { testConfig with i2cWriteRead := some paramErrWriteReadCap,
                    i2cWrite := some notInitWriteCap }

/-- The driver after a successful `begin` with `testConfig`. -/
def dTest : Driver := (freshDriver.begin testConfig).2

/-- The driver after a successful `begin` with `badIdConfig`. -/
def dBadId : Driver := (freshDriver.begin badIdConfig).2

/-- The driver after a successful `begin` with `excludedConfig`. -/
def dExcluded : Driver := (freshDriver.begin excludedConfig).2

/-- The driver after a successful `begin` with `mixedConfig` followed by
two failing tracked reads (bus conditions 0 and 1). -/
def dMixed2 : Driver :=
  ((((freshDriver.begin mixedConfig).2.readRegs 0 10 0xF7 true 1).2.2
    ).readRegs 1 11 0xF7 true 1).2.2

/-! ### Helper lemmas -/

/-- The ok predicate holds exactly on the `OK` classification. -/
lemma status_ok_iff (s : Status) : s.ok = true ↔ s.code = Err.OK := by
  simp [Status.ok]

/-- The ok predicate fails exactly off the `OK` classification. -/
lemma status_ok_false_iff (s : Status) : s.ok = false ↔ s.code ≠ Err.OK := by
  simp [Status.ok]

/-- Lemma: `_updateHealth` returns its argument status unchanged. -/
lemma updateHealth_fst (d : Driver) (now : Nat) (st : Status) :
    (d.updateHealth now st).1 = st := by
  unfold Driver.updateHealth
  split
  · rfl
  · split
    · rfl
    · rfl

/-- Field characterization of the success branch of `_updateHealth`. -/
lemma updateHealth_ok_snd (d : Driver) (now : Nat) (st : Status)
    (hinit : d.initialized = true) (hok : st.ok = true) :
    (d.updateHealth now st).2 =
      { d with lastOkMs := now,
               totalSuccess :=
                 if d.totalSuccess < maxU32 then d.totalSuccess + 1
                 else d.totalSuccess,
               consecutiveFailures := 0,
               driverState := DriverState.READY } := by
  unfold Driver.updateHealth
  simp [hinit, hok]

/-- Field characterization of the failure branch of `_updateHealth`. -/
lemma updateHealth_fail_snd (d : Driver) (now : Nat) (st : Status)
    (hinit : d.initialized = true) (hok : st.ok = false) :
    (d.updateHealth now st).2 =
      { d with lastError := st, lastErrorMs := now,
               totalFailures :=
                 if d.totalFailures < maxU32 then d.totalFailures + 1
                 else d.totalFailures,
               consecutiveFailures :=
                 if d.consecutiveFailures < maxU8 then
                   d.consecutiveFailures + 1
                 else d.consecutiveFailures,
               driverState :=
                 if (if d.consecutiveFailures < maxU8 then
                       d.consecutiveFailures + 1
                     else d.consecutiveFailures) ≥
                     d.config.offlineThreshold then DriverState.OFFLINE
                 else DriverState.DEGRADED } := by
  unfold Driver.updateHealth
  simp [hinit, hok]

/-! ### Claim theorems -/

/-- C4: for every invalid configuration (a transport capability absent,
or the timeout bound zero), `begin` returns invalid-configuration, the
driver stays uninitialized, and all health counters (timestamps, last
error, consecutive-failure count, lifetime failure and success counts)
are reset to their zero/sentinel values even though the attempt fails. -/
theorem begin_invalid_config_resets (d : Driver) (cfg : Config)
    (h : cfg.i2cWrite.isNone = true ∨ cfg.i2cWriteRead.isNone = true ∨
         cfg.i2cTimeoutMs = 0) :
    (d.begin cfg).1.code = Err.INVALID_CONFIG ∧
    (d.begin cfg).2.initialized = false ∧
    (d.begin cfg).2.driverState = DriverState.UNINIT ∧
    (d.begin cfg).2.lastOkMs = 0 ∧
    (d.begin cfg).2.lastErrorMs = 0 ∧
    (d.begin cfg).2.lastError = Status.Ok ∧
    (d.begin cfg).2.consecutiveFailures = 0 ∧
    (d.begin cfg).2.totalFailures = 0 ∧
    (d.begin cfg).2.totalSuccess = 0 := by
  unfold Driver.begin
  by_cases h1 : (cfg.i2cWrite.isNone || cfg.i2cWriteRead.isNone) = true
  · simp [h1, Status.Error]
  · have h2 : cfg.i2cTimeoutMs = 0 := by
      rcases h with h | h | h
      · simp [h] at h1
      · simp [h] at h1
      · exact h
    simp [h1, h2, Status.Error]

/-- C4 witness: `begin` on the default configuration (no capabilities). -/
theorem begin_invalid_config_resets_witness :
    (freshDriver.begin defaultConfig).1.code = Err.INVALID_CONFIG ∧
    (freshDriver.begin defaultConfig).2.initialized = false ∧
    (freshDriver.begin defaultConfig).2.driverState = DriverState.UNINIT ∧
    (freshDriver.begin defaultConfig).2.lastOkMs = 0 ∧
    (freshDriver.begin defaultConfig).2.lastErrorMs = 0 ∧
    (freshDriver.begin defaultConfig).2.lastError = Status.Ok ∧
    (freshDriver.begin defaultConfig).2.consecutiveFailures = 0 ∧
    (freshDriver.begin defaultConfig).2.totalFailures = 0 ∧
    (freshDriver.begin defaultConfig).2.totalSuccess = 0 :=
  begin_invalid_config_resets freshDriver defaultConfig (Or.inl rfl)

/-- C5: for every valid configuration (both capabilities present and a
nonzero timeout bound), `begin` returns ok, the state accessor yields
ready, all counters and both timestamps are zero, and a zero offline
threshold in the supplied configuration is stored as 1. -/
theorem begin_valid_config_ready (d : Driver) (cfg : Config)
    (w : I2cWriteFn) (f : I2cWriteReadFn)
    (hw : cfg.i2cWrite = some w) (hf : cfg.i2cWriteRead = some f)
    (ht : cfg.i2cTimeoutMs ≠ 0) :
    (d.begin cfg).1 = Status.Ok ∧
    (d.begin cfg).2.state = DriverState.READY ∧
    (d.begin cfg).2.initialized = true ∧
    (d.begin cfg).2.consecutiveFailures = 0 ∧
    (d.begin cfg).2.totalFailures = 0 ∧
    (d.begin cfg).2.totalSuccess = 0 ∧
    (d.begin cfg).2.lastOkMs = 0 ∧
    (d.begin cfg).2.lastErrorMs = 0 ∧
    (d.begin cfg).2.config.offlineThreshold =
      (if cfg.offlineThreshold = 0 then 1 else cfg.offlineThreshold) := by
  unfold Driver.begin Driver.state
  by_cases hz : cfg.offlineThreshold = 0
  · simp [hw, hf, ht, hz]
  · simp [hw, hf, ht, hz]

/-- C5 witness: `begin` on the concrete valid `testConfig`. -/
theorem begin_valid_config_ready_witness :
    (freshDriver.begin testConfig).1 = Status.Ok ∧
    (freshDriver.begin testConfig).2.state = DriverState.READY ∧
    (freshDriver.begin testConfig).2.initialized = true ∧
    (freshDriver.begin testConfig).2.consecutiveFailures = 0 ∧
    (freshDriver.begin testConfig).2.totalFailures = 0 ∧
    (freshDriver.begin testConfig).2.totalSuccess = 0 ∧
    (freshDriver.begin testConfig).2.lastOkMs = 0 ∧
    (freshDriver.begin testConfig).2.lastErrorMs = 0 ∧
    (freshDriver.begin testConfig).2.config.offlineThreshold =
      (if testConfig.offlineThreshold = 0 then 1
       else testConfig.offlineThreshold) :=
  begin_valid_config_ready freshDriver testConfig okWriteCap okWriteReadCap
    rfl rfl (by decide)

/-- C9: `end` is idempotent: after one call the driver is uninitialized
in state `UNINIT`, a second call changes nothing, calling it on a
default-constructed driver (before any `begin`) is the identity, and it
touches nothing beyond the initialized flag and the state. -/
theorem end_idempotent (d : Driver) :
    d.end_.initialized = false ∧
    d.end_.driverState = DriverState.UNINIT ∧
    d.end_.end_ = d.end_ ∧
    freshDriver.end_ = freshDriver ∧
    d.end_.config = d.config ∧
    d.end_.lastOkMs = d.lastOkMs ∧
    d.end_.lastErrorMs = d.lastErrorMs ∧
    d.end_.lastError = d.lastError ∧
    d.end_.consecutiveFailures = d.consecutiveFailures ∧
    d.end_.totalFailures = d.totalFailures ∧
    d.end_.totalSuccess = d.totalSuccess :=
  ⟨rfl, rfl, rfl, rfl, rfl, rfl, rfl, rfl, rfl, rfl, rfl⟩

/-- Lemma: `probe` never changes the driver's member state: every branch of its
body returns the receiver unchanged (it only reads `_config` and calls
the raw, untracked transport path). -/
lemma probe_snd (d : Driver) (world : Nat) : (d.probe world).2 = d := by
  simp only [Driver.probe]
  split
  · rfl
  · split
    · rfl
    · split
      · rfl
      · rfl

/-- C6: for every driver state, a failing `probe()` (raw transport
failure or identity mismatch) leaves the driver state, consecutive
failure count, lifetime counters, timestamps and last-error result
exactly unchanged: the returned driver is the receiver itself. -/
theorem probe_failure_frame (d : Driver) (world : Nat)
    (hfail : (d.probe world).1.ok = false) :
    (d.probe world).2 = d :=
  probe_snd d world

/-- C6 witness: a probe that fails with a chip-identity mismatch on the
wrong-identity transport leaves the driver unchanged. -/
theorem probe_failure_frame_witness :
    (dBadId.probe 0).1.ok = false ∧ (dBadId.probe 0).2 = dBadId :=
  ⟨rfl, probe_failure_frame dBadId 0 rfl⟩

/-- C7: for every initialized driver, `writeRegs` with a non-null buffer
of the maximal payload length 16 sends exactly the framed address byte
followed by the payload on the tracked write path (so with a successful
transport it returns that transport's ok status), while payload length 17
fails with invalid-parameter and leaves the driver unchanged for every
transport capability (the capability is never invoked). -/
theorem writeRegs_payload_bound (d : Driver) (world now startReg : Nat)
    (buf : List Nat) (wfn : I2cWriteFn)
    (hinit : d.initialized = true)
    (hw : d.config.i2cWrite = some wfn)
    (hlen : buf.length = 16) :
    (d.writeRegs world now startReg (some buf) 16 =
      d.i2cWriteTracked world now (some (startReg :: buf)) 17) ∧
    ((wfn world d.config.i2cAddress (startReg :: buf) 17
        d.config.i2cTimeoutMs d.config.i2cUser).ok = true →
      (d.writeRegs world now startReg (some buf) 16).1 =
        wfn world d.config.i2cAddress (startReg :: buf) 17
          d.config.i2cTimeoutMs d.config.i2cUser) ∧
    (∀ buf2 : List Nat,
      d.writeRegs world now startReg (some buf2) 17 =
        (Status.Error Err.INVALID_PARAM "Write length too large", d)) := by
  have htake : buf.take 16 = buf := by
    rw [← hlen]
    exact List.take_length buf
  refine ⟨?_, ?_, ?_⟩
  · simp [Driver.writeRegs, hinit, MAX_WRITE_LEN, htake]
  · intro hok
    have hcode : (wfn world d.config.i2cAddress (startReg :: buf) 17
        d.config.i2cTimeoutMs d.config.i2cUser).code = Err.OK :=
      (status_ok_iff _).mp hok
    simp [Driver.writeRegs, Driver.i2cWriteTracked, Driver.i2cWriteRaw,
          hinit, hw, MAX_WRITE_LEN, htake, hcode, updateHealth_fst]
  · intro buf2
    simp [Driver.writeRegs, hinit, MAX_WRITE_LEN]

/-- C7 witness: the payload-length bounds on the concrete initialized
test driver with a 16-byte payload and the always-ok write capability. -/
theorem writeRegs_payload_bound_witness :
    (dTest.writeRegs 0 0 0xAA (some (List.replicate 16 1)) 16 =
      dTest.i2cWriteTracked 0 0 (some (0xAA :: List.replicate 16 1)) 17) ∧
    ((okWriteCap 0 dTest.config.i2cAddress (0xAA :: List.replicate 16 1)
        17 dTest.config.i2cTimeoutMs dTest.config.i2cUser).ok = true →
      (dTest.writeRegs 0 0 0xAA (some (List.replicate 16 1)) 16).1 =
        okWriteCap 0 dTest.config.i2cAddress (0xAA :: List.replicate 16 1)
          17 dTest.config.i2cTimeoutMs dTest.config.i2cUser) ∧
    (∀ buf2 : List Nat,
      dTest.writeRegs 0 0 0xAA (some buf2) 17 =
        (Status.Error Err.INVALID_PARAM "Write length too large", dTest)) :=
  writeRegs_payload_bound dTest 0 0 0xAA (List.replicate 16 1) okWriteCap
    rfl rfl (by simp)

/-- C10: for every initialized driver with well-formed buffers, when the
injected transport capability itself returns a result classified as
not-initialized, invalid-configuration, or invalid-parameter, both
tracked wrappers return that result without invoking the health-update
step: the returned driver is the receiver unchanged. -/
theorem tracked_excluded_transport_codes (d : Driver) (world now : Nat)
    (f : I2cWriteReadFn) (w : I2cWriteFn)
    (tx buf : List Nat) (txLen rxLen len : Nat)
    (hinit : d.initialized = true)
    (hf : d.config.i2cWriteRead = some f)
    (hw : d.config.i2cWrite = some w)
    (htxLen : txLen ≠ 0) (hlen : len ≠ 0) :
    (((f world d.config.i2cAddress tx txLen rxLen d.config.i2cTimeoutMs
          d.config.i2cUser).1.code = Err.NOT_INITIALIZED ∨
      (f world d.config.i2cAddress tx txLen rxLen d.config.i2cTimeoutMs
          d.config.i2cUser).1.code = Err.INVALID_CONFIG ∨
      (f world d.config.i2cAddress tx txLen rxLen d.config.i2cTimeoutMs
          d.config.i2cUser).1.code = Err.INVALID_PARAM) →
      d.i2cWriteReadTracked world now (some tx) txLen true rxLen =
        ((f world d.config.i2cAddress tx txLen rxLen d.config.i2cTimeoutMs
            d.config.i2cUser).1,
         (f world d.config.i2cAddress tx txLen rxLen d.config.i2cTimeoutMs
            d.config.i2cUser).2, d)) ∧
    ((w world d.config.i2cAddress buf len d.config.i2cTimeoutMs
          d.config.i2cUser).code = Err.NOT_INITIALIZED ∨
      (w world d.config.i2cAddress buf len d.config.i2cTimeoutMs
          d.config.i2cUser).code = Err.INVALID_CONFIG ∨
      (w world d.config.i2cAddress buf len d.config.i2cTimeoutMs
          d.config.i2cUser).code = Err.INVALID_PARAM →
      d.i2cWriteTracked world now (some buf) len =
        (w world d.config.i2cAddress buf len d.config.i2cTimeoutMs
           d.config.i2cUser, d)) := by
  constructor
  · intro hcode
    simp only [Driver.i2cWriteReadTracked, Driver.i2cWriteReadRaw, hf,
               hinit, Bool.not_true, Bool.false_eq_true, if_false,
               Option.getD_some, Option.isNone_some]
    rcases hcode with h | h | h <;>
      simp [htxLen, h]
  · intro hcode
    simp only [Driver.i2cWriteTracked, Driver.i2cWriteRaw, hw, hinit,
               Bool.not_true, Bool.false_eq_true, if_false,
               Option.getD_some, Option.isNone_some]
    rcases hcode with h | h | h <;>
      simp [hlen, h]

/-- C10 witness: the concrete transports that report `INVALID_PARAM` on
the write-read path and `NOT_INITIALIZED` on the write path leave the
initialized test driver untouched. -/
theorem tracked_excluded_transport_codes_witness :
    (((paramErrWriteReadCap 0 dExcluded.config.i2cAddress [1] 1 1
          dExcluded.config.i2cTimeoutMs
          dExcluded.config.i2cUser).1.code = Err.NOT_INITIALIZED ∨
      (paramErrWriteReadCap 0 dExcluded.config.i2cAddress [1] 1 1
          dExcluded.config.i2cTimeoutMs
          dExcluded.config.i2cUser).1.code = Err.INVALID_CONFIG ∨
      (paramErrWriteReadCap 0 dExcluded.config.i2cAddress [1] 1 1
          dExcluded.config.i2cTimeoutMs
          dExcluded.config.i2cUser).1.code = Err.INVALID_PARAM) →
      dExcluded.i2cWriteReadTracked 0 7 (some [1]) 1 true 1 =
        ((paramErrWriteReadCap 0 dExcluded.config.i2cAddress [1] 1 1
            dExcluded.config.i2cTimeoutMs dExcluded.config.i2cUser).1,
         (paramErrWriteReadCap 0 dExcluded.config.i2cAddress [1] 1 1
            dExcluded.config.i2cTimeoutMs dExcluded.config.i2cUser).2,
         dExcluded)) ∧
    ((notInitWriteCap 0 dExcluded.config.i2cAddress [2] 1
          dExcluded.config.i2cTimeoutMs
          dExcluded.config.i2cUser).code = Err.NOT_INITIALIZED ∨
      (notInitWriteCap 0 dExcluded.config.i2cAddress [2] 1
          dExcluded.config.i2cTimeoutMs
          dExcluded.config.i2cUser).code = Err.INVALID_CONFIG ∨
      (notInitWriteCap 0 dExcluded.config.i2cAddress [2] 1
          dExcluded.config.i2cTimeoutMs
          dExcluded.config.i2cUser).code = Err.INVALID_PARAM →
      dExcluded.i2cWriteTracked 0 7 (some [2]) 1 =
        (notInitWriteCap 0 dExcluded.config.i2cAddress [2] 1
           dExcluded.config.i2cTimeoutMs dExcluded.config.i2cUser,
         dExcluded)) :=
  tracked_excluded_transport_codes dExcluded 0 7 paramErrWriteReadCap
    notInitWriteCap [1] [2] 1 1 1 rfl rfl rfl (by decide) (by decide)

/-- C1 counterexample: on the concrete driver `dMixed2` (initialized,
two prior tracked failures, so consecutive failures 2 and total
failures 2), a `recover` whose tracked transaction succeeds but reads
identity byte `0x61` instead of the expected constant returns
chip-identity-mismatch, yet the consecutive-failure count is CLEARED to
zero instead of incremented, the lifetime-failure count stays 2 instead
of becoming 3, the lifetime-success count is incremented to 1, and the
state becomes ready: the mismatch error is not forwarded through the
health state machine. -/
theorem recover_identity_mismatch_counterexample :
    dMixed2.consecutiveFailures = 2 ∧
    dMixed2.totalFailures = 2 ∧
    dMixed2.totalSuccess = 0 ∧
    (dMixed2.recover 2 42).1.code = Err.CHIP_ID_MISMATCH ∧
    (dMixed2.recover 2 42).2.consecutiveFailures = 0 ∧
    (dMixed2.recover 2 42).2.totalFailures = 2 ∧
    (dMixed2.recover 2 42).2.totalSuccess = 1 ∧
    (dMixed2.recover 2 42).2.driverState = DriverState.READY :=
  ⟨rfl, rfl, rfl, rfl, rfl, rfl, rfl, rfl⟩

/-- C1 (amended): for every initialized driver, when `recover()` fails
its identity check (the tracked write-read transaction succeeds but the
byte read differs from the expected chip-ID constant), the transaction's
OK outcome is the one forwarded through the health state machine — so the
failed recovery attempt is recorded as a success (consecutive-failure
count cleared to zero, lifetime-success count incremented with
saturation, lifetime-failure count unchanged, state ready) — and the
chip-identity-mismatch error is returned to the caller carrying the
unexpected byte, without itself passing through the health machine. -/
theorem recover_identity_mismatch_records_success (d : Driver)
    (world now : Nat) (f : I2cWriteReadFn)
    (hinit : d.initialized = true)
    (hf : d.config.i2cWriteRead = some f)
    (hok : (f world d.config.i2cAddress [REG_CHIP_ID] 1 1
        d.config.i2cTimeoutMs d.config.i2cUser).1.ok = true)
    (hid : (f world d.config.i2cAddress [REG_CHIP_ID] 1 1
        d.config.i2cTimeoutMs d.config.i2cUser).2.headD 0 ≠
        CHIP_ID_BME280) :
    (d.recover world now).1.code = Err.CHIP_ID_MISMATCH ∧
    (d.recover world now).1.detail =
      Int.ofNat ((f world d.config.i2cAddress [REG_CHIP_ID] 1 1
        d.config.i2cTimeoutMs d.config.i2cUser).2.headD 0) ∧
    (d.recover world now).2.consecutiveFailures = 0 ∧
    (d.recover world now).2.totalFailures = d.totalFailures ∧
    (d.recover world now).2.totalSuccess =
      (if d.totalSuccess < maxU32 then d.totalSuccess + 1
       else d.totalSuccess) ∧
    (d.recover world now).2.driverState = DriverState.READY := by
  have hcode : (f world d.config.i2cAddress [REG_CHIP_ID] 1 1
      d.config.i2cTimeoutMs d.config.i2cUser).1.code = Err.OK :=
    (status_ok_iff _).mp hok
  have hid' : ¬((f world d.config.i2cAddress [REG_CHIP_ID] 1 1
      d.config.i2cTimeoutMs d.config.i2cUser).2.head?.getD 0 =
      CHIP_ID_BME280) := by
    simpa using hid
  simp [Driver.recover, Driver.i2cWriteReadTracked, Driver.i2cWriteReadRaw,
        Driver.updateHealth, hinit, hf, hcode, hid', Status.ok,
        Status.ErrorD]

/-- C1 amended-claim witness: the amended behavior at the concrete
mixed-transport driver `dMixed2`. -/
theorem recover_identity_mismatch_records_success_witness :
    (dMixed2.recover 2 42).1.code = Err.CHIP_ID_MISMATCH ∧
    (dMixed2.recover 2 42).1.detail =
      Int.ofNat ((mixedWriteReadCap 2 dMixed2.config.i2cAddress
        [REG_CHIP_ID] 1 1 dMixed2.config.i2cTimeoutMs
        dMixed2.config.i2cUser).2.headD 0) ∧
    (dMixed2.recover 2 42).2.consecutiveFailures = 0 ∧
    (dMixed2.recover 2 42).2.totalFailures = dMixed2.totalFailures ∧
    (dMixed2.recover 2 42).2.totalSuccess =
      (if dMixed2.totalSuccess < maxU32 then dMixed2.totalSuccess + 1
       else dMixed2.totalSuccess) ∧
    (dMixed2.recover 2 42).2.driverState = DriverState.READY :=
  recover_identity_mismatch_records_success dMixed2 2 42
    mixedWriteReadCap rfl rfl rfl (by decide)

/-! ### Tracked-operation transition system

`TrackedStep d d'` holds when one call to a tracked operation (or to one
of the harmless non-mutating operations `probe`/`tick`) can take the
driver from member state `d` to member state `d'`, for some bus
condition, timestamp and arguments. `begin` and `end` are deliberately
not steps: the claims about reachable states quantify over sequences of
tracked operations after one successful initialization. -/

inductive TrackedStep : Driver → Driver → Prop where
  | writeReadTracked (d : Driver) (world now : Nat)
      (txBuf : Option (List Nat)) (txLen : Nat) (rxNonNull : Bool)
      (rxLen : Nat) :
      TrackedStep d
        (d.i2cWriteReadTracked world now txBuf txLen rxNonNull rxLen).2.2
  | writeTracked (d : Driver) (world now : Nat) (buf : Option (List Nat))
      (len : Nat) :
      TrackedStep d (d.i2cWriteTracked world now buf len).2
  | readRegs (d : Driver) (world now startReg : Nat) (bufNonNull : Bool)
      (len : Nat) :
      TrackedStep d (d.readRegs world now startReg bufNonNull len).2.2
  | writeRegs (d : Driver) (world now startReg : Nat)
      (buf : Option (List Nat)) (len : Nat) :
      TrackedStep d (d.writeRegs world now startReg buf len).2
  | recover (d : Driver) (world now : Nat) :
      TrackedStep d (d.recover world now).2
  | probe (d : Driver) (world : Nat) :
      TrackedStep d (d.probe world).2
  | tick (d : Driver) (now : Nat) :
      TrackedStep d (d.tick now)

/-- Reflexive-transitive closure of `TrackedStep` from a start state. -/
inductive ReachableFrom (d0 : Driver) : Driver → Prop where
  | refl : ReachableFrom d0 d0
  | step (d d' : Driver) (hr : ReachableFrom d0 d) (hs : TrackedStep d d') :
      ReachableFrom d0 d'

/-- Every branch of the tracked write-read wrapper either leaves the
driver unchanged or hands the transport outcome to `_updateHealth`. -/
lemma writeReadTracked_snd_cases (d : Driver) (world now : Nat)
    (txBuf : Option (List Nat)) (txLen : Nat) (rxNonNull : Bool)
    (rxLen : Nat) :
    (d.i2cWriteReadTracked world now txBuf txLen rxNonNull rxLen).2.2 = d ∨
    ∃ st, (d.i2cWriteReadTracked world now txBuf txLen rxNonNull
        rxLen).2.2 = (d.updateHealth now st).2 := by
  simp only [Driver.i2cWriteReadTracked]
  split
  · left; rfl
  · split
    · left; rfl
    · split
      · left; rfl
      · right; exact ⟨_, rfl⟩

/-- Every branch of the tracked write wrapper either leaves the driver
unchanged or hands the transport outcome to `_updateHealth`. -/
lemma writeTracked_snd_cases (d : Driver) (world now : Nat)
    (buf : Option (List Nat)) (len : Nat) :
    (d.i2cWriteTracked world now buf len).2 = d ∨
    ∃ st, (d.i2cWriteTracked world now buf len).2 =
        (d.updateHealth now st).2 := by
  simp only [Driver.i2cWriteTracked]
  split
  · left; rfl
  · split
    · left; rfl
    · split
      · left; rfl
      · right; exact ⟨_, rfl⟩

/-- Any tracked-operation step either leaves the driver's member state
unchanged or replaces it by a `_updateHealth` result: the health-update
algorithm is the only mutation point of the tracked layer. -/
lemma trackedStep_cases (d d' : Driver) (h : TrackedStep d d') :
    d' = d ∨ ∃ now st, d' = (d.updateHealth now st).2 := by
  cases h with
  | writeReadTracked world now txBuf txLen rxNonNull rxLen =>
      rcases writeReadTracked_snd_cases d world now txBuf txLen rxNonNull
          rxLen with h | ⟨st, h⟩
      · exact Or.inl h
      · exact Or.inr ⟨now, st, h⟩
  | writeTracked world now buf len =>
      rcases writeTracked_snd_cases d world now buf len with h | ⟨st, h⟩
      · exact Or.inl h
      · exact Or.inr ⟨now, st, h⟩
  | readRegs world now startReg bufNonNull len =>
      simp only [Driver.readRegs]
      split
      · exact Or.inl rfl
      · split
        · exact Or.inl rfl
        · rcases writeReadTracked_snd_cases d world now (some [startReg]) 1
              bufNonNull len with h | ⟨st, h⟩
          · exact Or.inl h
          · exact Or.inr ⟨now, st, h⟩
  | writeRegs world now startReg buf len =>
      simp only [Driver.writeRegs]
      split
      · exact Or.inl rfl
      · split
        · exact Or.inl rfl
        · split
          · exact Or.inl rfl
          · rcases writeTracked_snd_cases d world now
                (some (startReg :: (buf.getD []).take len)) (len + 1)
                with h | ⟨st, h⟩
            · exact Or.inl h
            · exact Or.inr ⟨now, st, h⟩
  | recover world now =>
      simp only [Driver.recover]
      split
      · exact Or.inl rfl
      · rcases writeReadTracked_snd_cases d world now (some [REG_CHIP_ID])
            1 true 1 with h | ⟨st, h⟩
        · split
          · exact Or.inl h
          · split
            · exact Or.inl h
            · exact Or.inl h
        · split
          · exact Or.inr ⟨now, st, h⟩
          · split
            · exact Or.inr ⟨now, st, h⟩
            · exact Or.inr ⟨now, st, h⟩
  | probe world =>
      exact Or.inl (probe_snd d world)
  | tick now =>
      exact Or.inl rfl

/-- The agreement between the driver state and the consecutive-failure
count that the spec's state taxonomy asserts, together with the stored
threshold being at least 1 (guaranteed by `begin`'s zero coercion). -/
def healthInv (d : Driver) : Prop :=
  1 ≤ d.config.offlineThreshold ∧
  (d.driverState = DriverState.READY ↔ d.consecutiveFailures = 0) ∧
  (d.driverState = DriverState.DEGRADED ↔
    1 ≤ d.consecutiveFailures ∧
    d.consecutiveFailures < d.config.offlineThreshold) ∧
  (d.driverState = DriverState.OFFLINE ↔
    d.config.offlineThreshold ≤ d.consecutiveFailures)

/-- Lemma: `_updateHealth` preserves the state/count agreement. -/
lemma healthInv_updateHealth (d : Driver) (now : Nat) (st : Status)
    (h : healthInv d) : healthInv (d.updateHealth now st).2 := by
  obtain ⟨hth, h1, h2, h3⟩ := h
  unfold Driver.updateHealth
  split
  · exact ⟨hth, h1, h2, h3⟩
  · split
    · refine ⟨hth, ?_, ?_, ?_⟩ <;> simp <;> omega
    · simp only [healthInv, maxU8, maxU32]
      refine ⟨hth, ?_, ?_, ?_⟩ <;> simp <;> (repeat' split) <;>
        first
          | omega
          | (simp_all; omega)
          | simp_all

/-- A successful `begin` establishes the state/count agreement. -/
lemma begin_ok_healthInv (dI : Driver) (cfg : Config)
    (h : ((dI.begin cfg).1).ok = true) : healthInv (dI.begin cfg).2 := by
  unfold Driver.begin at *
  by_cases h1 : (cfg.i2cWrite.isNone || cfg.i2cWriteRead.isNone) = true
  · simp [h1, Status.Error, Status.ok] at h
  · by_cases h2 : cfg.i2cTimeoutMs = 0
    · simp [h1, h2, Status.Error, Status.ok] at h
    · simp only [h1, h2, Bool.false_eq_true, if_false, if_true, ite_false]
      simp only [healthInv]
      by_cases h3 : cfg.offlineThreshold = 0
      · simp [h3]
      · simp [h3]
        omega

/-- The state/count agreement holds in every state reachable by tracked
operations from a state satisfying it. -/
lemma reachable_healthInv (d0 d : Driver) (h0 : healthInv d0)
    (hr : ReachableFrom d0 d) : healthInv d := by
  induction hr with
  | refl => exact h0
  | step d1 d2 hr1 hs ih =>
      rcases trackedStep_cases d1 d2 hs with he | ⟨now, st, he⟩
      · rw [he]; exact ih
      · rw [he]; exact healthInv_updateHealth d1 now st ih

/-- C3: in every state reachable after a successful initialization by
any sequence of tracked operations, the driver state agrees with the
consecutive-failure count: ready iff the count is exactly zero, degraded
iff it is at least 1 and below the offline threshold, offline iff it is
at least the offline threshold. -/
theorem state_classification_invariant (dI : Driver) (cfg : Config)
    (d : Driver)
    (hbegin : ((dI.begin cfg).1).ok = true)
    (hreach : ReachableFrom (dI.begin cfg).2 d) :
    (d.state = DriverState.READY ↔ d.consecutiveFailures = 0) ∧
    (d.state = DriverState.DEGRADED ↔
      1 ≤ d.consecutiveFailures ∧
      d.consecutiveFailures < d.config.offlineThreshold) ∧
    (d.state = DriverState.OFFLINE ↔
      d.config.offlineThreshold ≤ d.consecutiveFailures) := by
  have h := reachable_healthInv (dI.begin cfg).2 d
    (begin_ok_healthInv dI cfg hbegin) hreach
  exact ⟨h.2.1, h.2.2.1, h.2.2.2⟩

/-- The test driver after one failing tracked read (bus condition 0 on
the five-failures-then-success transport). -/
def dSeq1 : Driver :=
  ((freshDriver.begin seqConfig).2.readRegs 0 10 0xF7 true 1).2.2

/-- C3 witness: the classification agreement at the concrete reachable
state `dSeq1` (one failing tracked read after initialization). -/
theorem state_classification_invariant_witness :
    (dSeq1.state = DriverState.READY ↔ dSeq1.consecutiveFailures = 0) ∧
    (dSeq1.state = DriverState.DEGRADED ↔
      1 ≤ dSeq1.consecutiveFailures ∧
      dSeq1.consecutiveFailures < dSeq1.config.offlineThreshold) ∧
    (dSeq1.state = DriverState.OFFLINE ↔
      dSeq1.config.offlineThreshold ≤ dSeq1.consecutiveFailures) :=
  state_classification_invariant freshDriver seqConfig dSeq1 rfl
    (ReachableFrom.step _ _ ReachableFrom.refl
      (TrackedStep.readRegs _ 0 10 0xF7 true 1))

/-- Lemma: `_updateHealth` keeps every counter within its saturation bound. -/
lemma counterBounds_updateHealth (d : Driver) (now : Nat) (st : Status)
    (h1 : d.totalSuccess ≤ maxU32) (h2 : d.totalFailures ≤ maxU32)
    (h3 : d.consecutiveFailures ≤ maxU8) :
    ((d.updateHealth now st).2).totalSuccess ≤ maxU32 ∧
    ((d.updateHealth now st).2).totalFailures ≤ maxU32 ∧
    ((d.updateHealth now st).2).consecutiveFailures ≤ maxU8 := by
  unfold Driver.updateHealth
  split
  · exact ⟨h1, h2, h3⟩
  · split
    · refine ⟨?_, ?_, ?_⟩ <;> simp only []
      · split <;> omega
      · exact h2
      · omega
    · refine ⟨?_, ?_, ?_⟩ <;> simp only []
      · exact h1
      · split <;> omega
      · split <;> omega

/-- Lemma: `_updateHealth` never moves a counter that has reached its saturation
bound: at the bound the guarded increments are skipped, so the lifetime
counters stay at the 32-bit maximum and a failure outcome keeps the
consecutive-failure count at the 8-bit maximum instead of wrapping. -/
lemma updateHealth_sticky (d : Driver) (now : Nat) (st : Status) :
    (d.totalSuccess = maxU32 →
      ((d.updateHealth now st).2).totalSuccess = maxU32) ∧
    (d.totalFailures = maxU32 →
      ((d.updateHealth now st).2).totalFailures = maxU32) ∧
    (st.ok = false → d.consecutiveFailures = maxU8 →
      ((d.updateHealth now st).2).consecutiveFailures = maxU8) := by
  unfold Driver.updateHealth
  split
  · exact ⟨fun h => h, fun h => h, fun _ h => h⟩
  · split
    · rename_i hok
      refine ⟨?_, fun h => h, ?_⟩
      · intro h
        simp only []
        simp [h]
      · intro hfalse _
        rw [hfalse] at hok
        cases hok
    · refine ⟨fun h => h, ?_, ?_⟩
      · intro h
        simp only []
        simp [h]
      · intro _ h
        simp only []
        simp [h]

/-- Lemma: `begin` resets all three counters to zero on every path. -/
lemma begin_counters_zero (dI : Driver) (cfg : Config) :
    ((dI.begin cfg).2).totalSuccess = 0 ∧
    ((dI.begin cfg).2).totalFailures = 0 ∧
    ((dI.begin cfg).2).consecutiveFailures = 0 := by
  unfold Driver.begin
  split
  · exact ⟨rfl, rfl, rfl⟩
  · split
    · exact ⟨rfl, rfl, rfl⟩
    · exact ⟨rfl, rfl, rfl⟩

/-- Counter bounds propagate along tracked-operation sequences. -/
lemma reachable_counterBounds (d0 d : Driver)
    (h0 : d0.totalSuccess ≤ maxU32 ∧ d0.totalFailures ≤ maxU32 ∧
      d0.consecutiveFailures ≤ maxU8)
    (hr : ReachableFrom d0 d) :
    d.totalSuccess ≤ maxU32 ∧ d.totalFailures ≤ maxU32 ∧
    d.consecutiveFailures ≤ maxU8 := by
  induction hr with
  | refl => exact h0
  | step d1 d2 hr1 hs ih =>
      rcases trackedStep_cases d1 d2 hs with he | ⟨now, st, he⟩
      · rw [he]; exact ih
      · rw [he]
        exact counterBounds_updateHealth d1 now st ih.1 ih.2.1 ih.2.2

/-- C8: under every sequence of tracked operations after an
initialization attempt, the lifetime success and failure counts never
exceed the 32-bit maximum and never wrap: once either reaches the
maximum, any further tracked step leaves it there; and the
consecutive-failure count stays within its 8-bit maximum, where a further
failure outcome keeps it at that maximum rather than wrapping to zero. -/
theorem counters_saturate (dI : Driver) (cfg : Config) (d : Driver)
    (hreach : ReachableFrom (dI.begin cfg).2 d) :
    d.totalSuccess ≤ maxU32 ∧ d.totalFailures ≤ maxU32 ∧
    d.consecutiveFailures ≤ maxU8 ∧
    (∀ d', TrackedStep d d' →
      (d.totalSuccess = maxU32 → d'.totalSuccess = maxU32) ∧
      (d.totalFailures = maxU32 → d'.totalFailures = maxU32)) ∧
    (∀ now st, st.ok = false → d.consecutiveFailures = maxU8 →
      ((d.updateHealth now st).2).consecutiveFailures = maxU8) := by
  have hb := begin_counters_zero dI cfg
  have hbounds := reachable_counterBounds (dI.begin cfg).2 d
    ⟨le_of_eq_of_le hb.1 (Nat.zero_le _),
     le_of_eq_of_le hb.2.1 (Nat.zero_le _),
     le_of_eq_of_le hb.2.2 (Nat.zero_le _)⟩ hreach
  refine ⟨hbounds.1, hbounds.2.1, hbounds.2.2, ?_, ?_⟩
  · intro d' hs
    rcases trackedStep_cases d d' hs with he | ⟨now, st, he⟩
    · subst he; exact ⟨fun h => h, fun h => h⟩
    · subst he
      exact ⟨(updateHealth_sticky d now st).1,
             (updateHealth_sticky d now st).2.1⟩
  · intro now st hok hcf
    exact (updateHealth_sticky d now st).2.2 hok hcf

/-- C8 witness: the counter bounds at the concrete freshly-initialized
test driver, reached by the empty sequence of tracked operations. -/
theorem counters_saturate_witness :
    dTest.totalSuccess ≤ maxU32 ∧ dTest.totalFailures ≤ maxU32 ∧
    dTest.consecutiveFailures ≤ maxU8 :=
  ⟨(counters_saturate freshDriver testConfig dTest ReachableFrom.refl).1,
   (counters_saturate freshDriver testConfig dTest ReachableFrom.refl).2.1,
   (counters_saturate freshDriver testConfig dTest
      ReachableFrom.refl).2.2.1⟩

/-- One tracked register read, keeping only the resulting driver state
(the caller's receive buffer is non-null). -/
def readStep (d : Driver) (world now startReg len : Nat) : Driver :=
  (d.readRegs world now startReg true len).2.2

/-- The transport outcome for bus condition `world` on a framed read of
register `startReg` counts as a tracked failure: not ok, and not one of
the three classifications the tracked wrappers exclude from health
accounting. -/
def countsAsTrackedFailure (cfg : Config) (f : I2cWriteReadFn)
    (world startReg len : Nat) : Prop :=
  (f world cfg.i2cAddress [startReg] 1 len cfg.i2cTimeoutMs
     cfg.i2cUser).1.ok = false ∧
  (f world cfg.i2cAddress [startReg] 1 len cfg.i2cTimeoutMs
     cfg.i2cUser).1.code ≠ Err.INVALID_CONFIG ∧
  (f world cfg.i2cAddress [startReg] 1 len cfg.i2cTimeoutMs
     cfg.i2cUser).1.code ≠ Err.INVALID_PARAM ∧
  (f world cfg.i2cAddress [startReg] 1 len cfg.i2cTimeoutMs
     cfg.i2cUser).1.code ≠ Err.NOT_INITIALIZED

/-- A tracked read whose transport outcome counts as a failure applies
exactly the failure branch of `_updateHealth` to the driver. -/
lemma readRegs_fail_step (d : Driver) (world now startReg len : Nat)
    (f : I2cWriteReadFn)
    (hinit : d.initialized = true)
    (hf : d.config.i2cWriteRead = some f)
    (hlen : len ≠ 0)
    (hok : (f world d.config.i2cAddress [startReg] 1 len
        d.config.i2cTimeoutMs d.config.i2cUser).1.ok = false)
    (hc1 : (f world d.config.i2cAddress [startReg] 1 len
        d.config.i2cTimeoutMs d.config.i2cUser).1.code ≠
        Err.INVALID_CONFIG)
    (hc2 : (f world d.config.i2cAddress [startReg] 1 len
        d.config.i2cTimeoutMs d.config.i2cUser).1.code ≠
        Err.INVALID_PARAM)
    (hc3 : (f world d.config.i2cAddress [startReg] 1 len
        d.config.i2cTimeoutMs d.config.i2cUser).1.code ≠
        Err.NOT_INITIALIZED) :
    readStep d world now startReg len =
      { d with
        lastError := (f world d.config.i2cAddress [startReg] 1 len
          d.config.i2cTimeoutMs d.config.i2cUser).1,
        lastErrorMs := now,
        totalFailures :=
          if d.totalFailures < maxU32 then d.totalFailures + 1
          else d.totalFailures,
        consecutiveFailures :=
          if d.consecutiveFailures < maxU8 then d.consecutiveFailures + 1
          else d.consecutiveFailures,
        driverState :=
          if (if d.consecutiveFailures < maxU8 then
                d.consecutiveFailures + 1
              else d.consecutiveFailures) ≥
              d.config.offlineThreshold then DriverState.OFFLINE
          else DriverState.DEGRADED } := by
  have h := updateHealth_fail_snd d now
    (f world d.config.i2cAddress [startReg] 1 len d.config.i2cTimeoutMs
      d.config.i2cUser).1 hinit hok
  simp [readStep, Driver.readRegs, Driver.i2cWriteReadTracked,
        Driver.i2cWriteReadRaw, hinit, hf, hlen, hc1, hc2, hc3, h]

/-- A tracked read whose transport outcome is ok applies exactly the
success branch of `_updateHealth` to the driver. -/
lemma readRegs_ok_step (d : Driver) (world now startReg len : Nat)
    (f : I2cWriteReadFn)
    (hinit : d.initialized = true)
    (hf : d.config.i2cWriteRead = some f)
    (hlen : len ≠ 0)
    (hok : (f world d.config.i2cAddress [startReg] 1 len
        d.config.i2cTimeoutMs d.config.i2cUser).1.ok = true) :
    readStep d world now startReg len =
      { d with
        lastOkMs := now,
        totalSuccess :=
          if d.totalSuccess < maxU32 then d.totalSuccess + 1
          else d.totalSuccess,
        consecutiveFailures := 0,
        driverState := DriverState.READY } := by
  have hcode := (status_ok_iff _).mp hok
  have h := updateHealth_ok_snd d now
    (f world d.config.i2cAddress [startReg] 1 len d.config.i2cTimeoutMs
      d.config.i2cUser).1 hinit hok
  simp [readStep, Driver.readRegs, Driver.i2cWriteReadTracked,
        Driver.i2cWriteReadRaw, hinit, hf, hlen, hcode, h]

/-- C2: for every configuration with offline threshold 5 (and valid
capabilities), starting from a freshly initialized driver: after 4
consecutive failing tracked reads the state is degraded with
consecutive-failure count 4; after a 5th failing read the state is
offline with count 5; after one subsequent successful tracked read the
state is ready with count 0, lifetime success count 1 and lifetime
failure count 5. -/
theorem failure_threshold_scenario
    (cfg : Config) (wc : I2cWriteFn) (f : I2cWriteReadFn)
    (hW : cfg.i2cWrite = some wc) (hR : cfg.i2cWriteRead = some f)
    (hT : cfg.i2cTimeoutMs ≠ 0) (hTh : cfg.offlineThreshold = 5)
    (r len : Nat) (hlen : len ≠ 0)
    (w1 w2 w3 w4 w5 w6 t1 t2 t3 t4 t5 t6 : Nat)
    (h1 : countsAsTrackedFailure cfg f w1 r len)
    (h2 : countsAsTrackedFailure cfg f w2 r len)
    (h3 : countsAsTrackedFailure cfg f w3 r len)
    (h4 : countsAsTrackedFailure cfg f w4 r len)
    (h5 : countsAsTrackedFailure cfg f w5 r len)
    (h6 : (f w6 cfg.i2cAddress [r] 1 len cfg.i2cTimeoutMs
        cfg.i2cUser).1.ok = true) :
    (readStep (readStep (readStep (readStep ((freshDriver.begin cfg).2) w1 t1 r len) w2 t2 r len) w3 t3 r len) w4 t4 r len).driverState = DriverState.DEGRADED ∧
    (readStep (readStep (readStep (readStep ((freshDriver.begin cfg).2) w1 t1 r len) w2 t2 r len) w3 t3 r len) w4 t4 r len).consecutiveFailures = 4 ∧
    (readStep (readStep (readStep (readStep (readStep ((freshDriver.begin cfg).2) w1 t1 r len) w2 t2 r len) w3 t3 r len) w4 t4 r len) w5 t5 r len).driverState = DriverState.OFFLINE ∧
    (readStep (readStep (readStep (readStep (readStep ((freshDriver.begin cfg).2) w1 t1 r len) w2 t2 r len) w3 t3 r len) w4 t4 r len) w5 t5 r len).consecutiveFailures = 5 ∧
    (readStep (readStep (readStep (readStep (readStep (readStep ((freshDriver.begin cfg).2) w1 t1 r len) w2 t2 r len) w3 t3 r len) w4 t4 r len) w5 t5 r len) w6 t6 r len).driverState = DriverState.READY ∧
    (readStep (readStep (readStep (readStep (readStep (readStep ((freshDriver.begin cfg).2) w1 t1 r len) w2 t2 r len) w3 t3 r len) w4 t4 r len) w5 t5 r len) w6 t6 r len).consecutiveFailures = 0 ∧
    (readStep (readStep (readStep (readStep (readStep (readStep ((freshDriver.begin cfg).2) w1 t1 r len) w2 t2 r len) w3 t3 r len) w4 t4 r len) w5 t5 r len) w6 t6 r len).totalSuccess = 1 ∧
    (readStep (readStep (readStep (readStep (readStep (readStep ((freshDriver.begin cfg).2) w1 t1 r len) w2 t2 r len) w3 t3 r len) w4 t4 r len) w5 t5 r len) w6 t6 r len).totalFailures = 5 := by
  obtain ⟨ha1, hb1, hc1, hd1⟩ := h1
  obtain ⟨ha2, hb2, hc2, hd2⟩ := h2
  obtain ⟨ha3, hb3, hc3, hd3⟩ := h3
  obtain ⟨ha4, hb4, hc4, hd4⟩ := h4
  obtain ⟨ha5, hb5, hc5, hd5⟩ := h5
  have hz : cfg.offlineThreshold ≠ 0 := by rw [hTh]; decide
  have hd0 : (freshDriver.begin cfg).2 =
      { config := cfg, initialized := true,
        driverState := DriverState.READY, lastOkMs := 0,
        lastErrorMs := 0,
        lastError := Status.Ok,
        consecutiveFailures := 0, totalFailures := 0,
        totalSuccess := 0 } := by
    unfold Driver.begin
    simp [hW, hR, hT, hz, freshDriver, defaultConfig]
  have e1 : readStep
      { config := cfg, initialized := true,
        driverState := DriverState.READY, lastOkMs := 0,
        lastErrorMs := 0,
        lastError := Status.Ok,
        consecutiveFailures := 0, totalFailures := 0,
        totalSuccess := 0 }
      w1 t1 r len =
      { config := cfg, initialized := true,
        driverState := DriverState.DEGRADED, lastOkMs := 0,
        lastErrorMs := t1,
        lastError := (f w1 cfg.i2cAddress [r] 1 len cfg.i2cTimeoutMs cfg.i2cUser).1,
        consecutiveFailures := 1, totalFailures := 1,
        totalSuccess := 0 } := by
    rw [readRegs_fail_step
        { config := cfg, initialized := true,
          driverState := DriverState.READY, lastOkMs := 0,
          lastErrorMs := 0,
          lastError := Status.Ok,
          consecutiveFailures := 0, totalFailures := 0,
          totalSuccess := 0 }
        w1 t1 r len f rfl hR hlen ha1 hb1 hc1 hd1]
    simp [hTh, maxU8, maxU32]
  have e2 : readStep
      { config := cfg, initialized := true,
        driverState := DriverState.DEGRADED, lastOkMs := 0,
        lastErrorMs := t1,
        lastError := (f w1 cfg.i2cAddress [r] 1 len cfg.i2cTimeoutMs cfg.i2cUser).1,
        consecutiveFailures := 1, totalFailures := 1,
        totalSuccess := 0 }
      w2 t2 r len =
      { config := cfg, initialized := true,
        driverState := DriverState.DEGRADED, lastOkMs := 0,
        lastErrorMs := t2,
        lastError := (f w2 cfg.i2cAddress [r] 1 len cfg.i2cTimeoutMs cfg.i2cUser).1,
        consecutiveFailures := 2, totalFailures := 2,
        totalSuccess := 0 } := by
    rw [readRegs_fail_step
        { config := cfg, initialized := true,
          driverState := DriverState.DEGRADED, lastOkMs := 0,
          lastErrorMs := t1,
          lastError := (f w1 cfg.i2cAddress [r] 1 len cfg.i2cTimeoutMs cfg.i2cUser).1,
          consecutiveFailures := 1, totalFailures := 1,
          totalSuccess := 0 }
        w2 t2 r len f rfl hR hlen ha2 hb2 hc2 hd2]
    simp [hTh, maxU8, maxU32]
  have e3 : readStep
      { config := cfg, initialized := true,
        driverState := DriverState.DEGRADED, lastOkMs := 0,
        lastErrorMs := t2,
        lastError := (f w2 cfg.i2cAddress [r] 1 len cfg.i2cTimeoutMs cfg.i2cUser).1,
        consecutiveFailures := 2, totalFailures := 2,
        totalSuccess := 0 }
      w3 t3 r len =
      { config := cfg, initialized := true,
        driverState := DriverState.DEGRADED, lastOkMs := 0,
        lastErrorMs := t3,
        lastError := (f w3 cfg.i2cAddress [r] 1 len cfg.i2cTimeoutMs cfg.i2cUser).1,
        consecutiveFailures := 3, totalFailures := 3,
        totalSuccess := 0 } := by
    rw [readRegs_fail_step
        { config := cfg, initialized := true,
          driverState := DriverState.DEGRADED, lastOkMs := 0,
          lastErrorMs := t2,
          lastError := (f w2 cfg.i2cAddress [r] 1 len cfg.i2cTimeoutMs cfg.i2cUser).1,
          consecutiveFailures := 2, totalFailures := 2,
          totalSuccess := 0 }
        w3 t3 r len f rfl hR hlen ha3 hb3 hc3 hd3]
    simp [hTh, maxU8, maxU32]
  have e4 : readStep
      { config := cfg, initialized := true,
        driverState := DriverState.DEGRADED, lastOkMs := 0,
        lastErrorMs := t3,
        lastError := (f w3 cfg.i2cAddress [r] 1 len cfg.i2cTimeoutMs cfg.i2cUser).1,
        consecutiveFailures := 3, totalFailures := 3,
        totalSuccess := 0 }
      w4 t4 r len =
      { config := cfg, initialized := true,
        driverState := DriverState.DEGRADED, lastOkMs := 0,
        lastErrorMs := t4,
        lastError := (f w4 cfg.i2cAddress [r] 1 len cfg.i2cTimeoutMs cfg.i2cUser).1,
        consecutiveFailures := 4, totalFailures := 4,
        totalSuccess := 0 } := by
    rw [readRegs_fail_step
        { config := cfg, initialized := true,
          driverState := DriverState.DEGRADED, lastOkMs := 0,
          lastErrorMs := t3,
          lastError := (f w3 cfg.i2cAddress [r] 1 len cfg.i2cTimeoutMs cfg.i2cUser).1,
          consecutiveFailures := 3, totalFailures := 3,
          totalSuccess := 0 }
        w4 t4 r len f rfl hR hlen ha4 hb4 hc4 hd4]
    simp [hTh, maxU8, maxU32]
  have e5 : readStep
      { config := cfg, initialized := true,
        driverState := DriverState.DEGRADED, lastOkMs := 0,
        lastErrorMs := t4,
        lastError := (f w4 cfg.i2cAddress [r] 1 len cfg.i2cTimeoutMs cfg.i2cUser).1,
        consecutiveFailures := 4, totalFailures := 4,
        totalSuccess := 0 }
      w5 t5 r len =
      { config := cfg, initialized := true,
        driverState := DriverState.OFFLINE, lastOkMs := 0,
        lastErrorMs := t5,
        lastError := (f w5 cfg.i2cAddress [r] 1 len cfg.i2cTimeoutMs cfg.i2cUser).1,
        consecutiveFailures := 5, totalFailures := 5,
        totalSuccess := 0 } := by
    rw [readRegs_fail_step
        { config := cfg, initialized := true,
          driverState := DriverState.DEGRADED, lastOkMs := 0,
          lastErrorMs := t4,
          lastError := (f w4 cfg.i2cAddress [r] 1 len cfg.i2cTimeoutMs cfg.i2cUser).1,
          consecutiveFailures := 4, totalFailures := 4,
          totalSuccess := 0 }
        w5 t5 r len f rfl hR hlen ha5 hb5 hc5 hd5]
    simp [hTh, maxU8, maxU32]
  have e6 : readStep
      { config := cfg, initialized := true,
        driverState := DriverState.OFFLINE, lastOkMs := 0,
        lastErrorMs := t5,
        lastError := (f w5 cfg.i2cAddress [r] 1 len cfg.i2cTimeoutMs cfg.i2cUser).1,
        consecutiveFailures := 5, totalFailures := 5,
        totalSuccess := 0 }
      w6 t6 r len =
      { config := cfg, initialized := true,
        driverState := DriverState.READY, lastOkMs := t6,
        lastErrorMs := t5,
        lastError := (f w5 cfg.i2cAddress [r] 1 len cfg.i2cTimeoutMs cfg.i2cUser).1,
        consecutiveFailures := 0, totalFailures := 5,
        totalSuccess := 1 } := by
    rw [readRegs_ok_step
        { config := cfg, initialized := true,
          driverState := DriverState.OFFLINE, lastOkMs := 0,
          lastErrorMs := t5,
          lastError := (f w5 cfg.i2cAddress [r] 1 len cfg.i2cTimeoutMs cfg.i2cUser).1,
          consecutiveFailures := 5, totalFailures := 5,
          totalSuccess := 0 }
        w6 t6 r len f rfl hR hlen h6]
    simp [maxU32]
  rw [hd0, e1, e2, e3, e4, e5, e6]
  exact ⟨rfl, rfl, rfl, rfl, rfl, rfl, rfl, rfl⟩

/-- C2 witness: the concrete scenario on `seqConfig` (offline threshold
5, transport failing for bus conditions 0 to 4 and succeeding at 5). -/
theorem failure_threshold_scenario_witness :
    (readStep (readStep (readStep (readStep ((freshDriver.begin seqConfig).2) 0 1 0xF7 1) 1 2 0xF7 1) 2 3 0xF7 1) 3 4 0xF7 1).driverState = DriverState.DEGRADED ∧
    (readStep (readStep (readStep (readStep ((freshDriver.begin seqConfig).2) 0 1 0xF7 1) 1 2 0xF7 1) 2 3 0xF7 1) 3 4 0xF7 1).consecutiveFailures = 4 ∧
    (readStep (readStep (readStep (readStep (readStep ((freshDriver.begin seqConfig).2) 0 1 0xF7 1) 1 2 0xF7 1) 2 3 0xF7 1) 3 4 0xF7 1) 4 5 0xF7 1).driverState = DriverState.OFFLINE ∧
    (readStep (readStep (readStep (readStep (readStep ((freshDriver.begin seqConfig).2) 0 1 0xF7 1) 1 2 0xF7 1) 2 3 0xF7 1) 3 4 0xF7 1) 4 5 0xF7 1).consecutiveFailures = 5 ∧
    (readStep (readStep (readStep (readStep (readStep (readStep ((freshDriver.begin seqConfig).2) 0 1 0xF7 1) 1 2 0xF7 1) 2 3 0xF7 1) 3 4 0xF7 1) 4 5 0xF7 1) 5 6 0xF7 1).driverState = DriverState.READY ∧
    (readStep (readStep (readStep (readStep (readStep (readStep ((freshDriver.begin seqConfig).2) 0 1 0xF7 1) 1 2 0xF7 1) 2 3 0xF7 1) 3 4 0xF7 1) 4 5 0xF7 1) 5 6 0xF7 1).consecutiveFailures = 0 ∧
    (readStep (readStep (readStep (readStep (readStep (readStep ((freshDriver.begin seqConfig).2) 0 1 0xF7 1) 1 2 0xF7 1) 2 3 0xF7 1) 3 4 0xF7 1) 4 5 0xF7 1) 5 6 0xF7 1).totalSuccess = 1 ∧
    (readStep (readStep (readStep (readStep (readStep (readStep ((freshDriver.begin seqConfig).2) 0 1 0xF7 1) 1 2 0xF7 1) 2 3 0xF7 1) 3 4 0xF7 1) 4 5 0xF7 1) 5 6 0xF7 1).totalFailures = 5 :=
  failure_threshold_scenario seqConfig okWriteCap seqWriteReadCap rfl rfl
    (by decide) rfl 0xF7 1 (by decide) 0 1 2 3 4 5 1 2 3 4 5 6
    ⟨by decide, by decide, by decide, by decide⟩
    ⟨by decide, by decide, by decide, by decide⟩
    ⟨by decide, by decide, by decide, by decide⟩
    ⟨by decide, by decide, by decide, by decide⟩
    ⟨by decide, by decide, by decide, by decide⟩
    (by decide)

end BME280
